import Mathlib

/-!
# The action dispatcher of `accounts/static/accounts/js/app.js`

The script binds one click handler to each of the classes `.bookmark`,
`.contact`, `.shortlist` and `.archive`.  A click sends one `$.ajax` request;
the `statusCode` map of that request holds a callback for 200 and one for 401.

The page is a record (`Page`): its elements with their jQuery click handlers,
the hidden `csrfmiddlewaretoken` inputs, the global variable `clicked_btn`, the
number of `window.location.reload()` calls and the requests sent so far.  A
handler is a function on that record.  A callback that throws leaves the record
as it was before the callback ran.

The values a response can carry are ECMAScript values (`JSValue`), with the
conversions the handlers apply to them: `ToString` for the selector built from
the echoed identifier and `==` against `true` for `is_bookmarked`.
-/

namespace Sebez

/-! ## ECMAScript numbers -/

/-- An ECMAScript Number: NaN, an infinity, or the finite value
`± mantissa · 2 ^ exponent`; both zeros have `mantissa = 0`. -/
inductive JSNumber
  | nan
  | infinity (negative : Bool)
  | finite (negative : Bool) (mantissa : Nat) (exponent : Int)
  deriving DecidableEq

/-- Number::equal: NaN equals nothing, the two zeros are equal, every other
pair is compared by value. -/
def JSNumber.equal : JSNumber → JSNumber → Bool
  | .infinity a, .infinity b => a == b
  | .finite s m e, .finite t n f =>
    if m = 0 ∨ n = 0 then m = 0 ∧ n = 0
    else s == t && (m * 2 ^ (e - min e f).toNat == n * 2 ^ (f - min e f).toNat)
  | _, _ => false

/-- The Number 1, which is `ToNumber(true)`. -/
def JSNumber.one : JSNumber := .finite false 1 0

/-- Helper of `bitLength`, with the recursion bounded by `fuel`. -/
def bitLengthAux : Nat → Nat → Nat
  | 0, _ => 0
  | fuel + 1, k => if k = 0 then 0 else bitLengthAux fuel (k / 2) + 1

/-- Number of binary digits of `n`. -/
def bitLength (n : Nat) : Nat := bitLengthAux n n

/-- The double nearest to the rational `num / den`, ties to even, with the sign
given: the rounding ECMAScript applies to the mathematical value of a numeric
string.  Doubles have 53 significant bits, exponents from `-1074` to `971`.
Past 20 significant digits ECMAScript lets an engine round either of two
neighbouring decimals instead; the exact value lies between them, so its
rounding is one of the two results allowed. -/
def roundToDouble (negative : Bool) (num den : Nat) : JSNumber :=
  if num = 0 ∨ den = 0 then .finite negative 0 0
  else
    let guess : Int := (bitLength num : Int) - (bitLength den : Int)
    let lg : Int :=
      if num * 2 ^ (-guess).toNat < den * 2 ^ guess.toNat then guess - 1 else guess
    let e : Int := max (lg - 52) (-1074)
    let n := num * 2 ^ (-e).toNat
    let d := den * 2 ^ e.toNat
    let q := n / d
    let r := n % d
    let m := if d < 2 * r ∨ (2 * r = d ∧ q % 2 = 1) then q + 1 else q
    if 972 ≤ e ∨ (e = 971 ∧ 2 ^ 53 ≤ m) then .infinity negative
    else .finite negative m e

/-! ### StringToNumber -/

/-- StrWhiteSpaceChar: the code points of WhiteSpace and LineTerminator. -/
def isStrWhiteSpaceChar (c : Char) : Bool :=
  let n := c.toNat
  n ∈ [0x9, 0xA, 0xB, 0xC, 0xD, 0x20, 0xA0, 0x1680, 0x2028, 0x2029, 0x202F, 0x205F,
      0x3000, 0xFEFF]
    || (0x2000 ≤ n && n ≤ 0x200A)

/-- The characters without leading and trailing StrWhiteSpaceChar. -/
def trimStrWhiteSpace (cs : List Char) : List Char :=
  ((cs.dropWhile isStrWhiteSpaceChar).reverse.dropWhile isStrWhiteSpaceChar).reverse

/-- Value of a hexadecimal digit. -/
def digitValue (c : Char) : Option Nat :=
  let n := c.toNat
  if 48 ≤ n ∧ n ≤ 57 then some (n - 48)
  else if 97 ≤ n ∧ n ≤ 102 then some (n - 87)
  else if 65 ≤ n ∧ n ≤ 70 then some (n - 55)
  else none

/-- Value of a non-empty run of digits of the base, `none` when the run is
empty or holds another character. -/
def digitsValue (base : Nat) (cs : List Char) : Option Nat :=
  if cs.isEmpty then none
  else
    cs.foldlM
      (fun acc c => (digitValue c).bind fun v => if v < base then some (acc * base + v) else none)
      0

/-- ExponentPart, when there is one: the exponent, `none` on a syntax error. -/
def exponentPart : List Char → Option Int
  | [] => some 0
  | c :: rest =>
    if c = 'e' ∨ c = 'E' then
      match rest with
      | '+' :: ds => (digitsValue 10 ds).map Int.ofNat
      | '-' :: ds => (digitsValue 10 ds).map fun n => - Int.ofNat n
      | ds => (digitsValue 10 ds).map Int.ofNat
    else none

/-- The Number for the decimal digits `ds` scaled by `10 ^ e`. -/
def decimalValue (negative : Bool) (ds : List Char) (e : Int) : JSNumber :=
  match digitsValue 10 ds with
  | none => .nan
  | some n => roundToDouble negative (n * 10 ^ e.toNat) (10 ^ (-e).toNat)

/-- StrUnsignedDecimalLiteral: `Infinity`, or digits with an optional fraction
and an optional exponent. -/
def strUnsignedDecimalLiteral (negative : Bool) (cs : List Char) : JSNumber :=
  if cs = "Infinity".toList then .infinity negative
  else
    let ip := cs.takeWhile Char.isDigit
    match cs.dropWhile Char.isDigit with
    | '.' :: rest =>
      let fp := rest.takeWhile Char.isDigit
      match exponentPart (rest.dropWhile Char.isDigit) with
      | none => .nan
      | some e => decimalValue negative (ip ++ fp) (e - fp.length)
    | rest =>
      match exponentPart rest with
      | none => .nan
      | some e => decimalValue negative ip e

/-- NonDecimalIntegerLiteral: the digits after `0x`, `0o` or `0b`. -/
def nonDecimalIntegerLiteral (base : Nat) (ds : List Char) : JSNumber :=
  match digitsValue base ds with
  | none => .nan
  | some n => roundToDouble false n 1

/-- StringToNumber: the Number a string converts to, NaN when the string is no
StringNumericLiteral. -/
def stringToNumber (s : String) : JSNumber :=
  match trimStrWhiteSpace s.toList with
  | [] => .finite false 0 0
  | '0' :: 'x' :: ds => nonDecimalIntegerLiteral 16 ds
  | '0' :: 'X' :: ds => nonDecimalIntegerLiteral 16 ds
  | '0' :: 'o' :: ds => nonDecimalIntegerLiteral 8 ds
  | '0' :: 'O' :: ds => nonDecimalIntegerLiteral 8 ds
  | '0' :: 'b' :: ds => nonDecimalIntegerLiteral 2 ds
  | '0' :: 'B' :: ds => nonDecimalIntegerLiteral 2 ds
  | '+' :: cs => strUnsignedDecimalLiteral false cs
  | '-' :: cs => strUnsignedDecimalLiteral true cs
  | cs => strUnsignedDecimalLiteral false cs

/-! ### Number::toString -/

/-- The decimal exponent `n` of the positive rational `num / den`:
`10 ^ (n - 1) ≤ num / den < 10 ^ n`. -/
def decimalExponent (num den : Nat) : Int :=
  if den ≤ num then ((Nat.toDigits 10 (num / den)).length : Int)
  else
    match (List.range 400).find? fun j => den ≤ num * 10 ^ (j + 1) with
    | some j => - (j : Int)
    | none => -400

/-- Whether the decimal `s · 10 ^ (n - k)` converts to the double `x`. -/
def roundTrips (x : JSNumber) (s : Nat) (n k : Int) : Bool :=
  (roundToDouble false (s * 10 ^ (n - k).toNat) (10 ^ (k - n).toNat)).equal x

/-- The `k`-digit significand `s` nearest to `num / den` among those for which
`s · 10 ^ (n - k)` converts to `x`, when there is one. -/
def significand (x : JSNumber) (num den : Nat) (n : Int) (k : Nat) : Option Nat :=
  let a := num * 10 ^ ((k : Int) - n).toNat
  let b := den * 10 ^ (n - (k : Int)).toNat
  let lo := a / b
  let r := a % b
  let okLo := roundTrips x lo n k
  let okHi := roundTrips x (lo + 1) n k
  if okLo ∧ okHi then
    if 2 * r < b ∨ (2 * r = b ∧ lo % 2 = 0) then some lo else some (lo + 1)
  else if okLo then some lo
  else if okHi then some (lo + 1)
  else none

/-- The integers `n`, `k`, `s` of Number::toString for the positive double
`x = num / den`: the fewest digits `k` whose decimal converts back to `x`. -/
def shortestDecimal (x : JSNumber) (num den : Nat) : Int × Nat × Nat :=
  let n := decimalExponent num den
  match (List.range 17).findSome? fun j =>
      (significand x num den n (j + 1)).map fun s => (j + 1, s) with
  | some (k, s) => if s = 10 ^ k then (n + 1, 1, 1) else (n, k, s)
  | none => (n, 17, num * 10 ^ (17 - n).toNat / (den * 10 ^ (n - 17).toNat))

/-- Number::toString with radix 10. -/
def numberToString : JSNumber → String
  | .nan => "NaN"
  | .infinity negative => if negative then "-Infinity" else "Infinity"
  | .finite negative m e =>
    if m = 0 then "0"
    else
      let (n, k, s) := shortestDecimal (.finite false m e) (m * 2 ^ e.toNat) (2 ^ (-e).toNat)
      let ds := Nat.toDigits 10 s
      let body : List Char :=
        if -5 ≤ n ∧ n ≤ 21 then
          if (k : Int) ≤ n then ds ++ List.replicate (n - k).toNat '0'
          else if 0 < n then ds.take n.toNat ++ '.' :: ds.drop n.toNat
          else '0' :: '.' :: List.replicate (-n).toNat '0' ++ ds
        else
          let ex := (if 0 < n - 1 then "e+" else "e-").toList ++ Nat.toDigits 10 (n - 1).natAbs
          if k = 1 then ds ++ ex else ds.take 1 ++ '.' :: ds.drop 1 ++ ex
      String.mk ((if negative then ['-'] else []) ++ body)

/-! ## ECMAScript values -/

/-- A value as the handlers observe it.  Of an object (an array or a record
nested in the response) they observe only the string its conversion to a
primitive gives: the joined elements of an array, `[object Object]` of a
record. -/
inductive JSValue
  | undefined
  | null
  | boolean (b : Bool)
  | number (n : JSNumber)
  | string (s : String)
  | object (primitive : String)
  deriving DecidableEq

/-- ToString, as applied by `+` with a string operand. -/
def JSValue.toStr : JSValue → String
  | .undefined => "undefined"
  | .null => "null"
  | .boolean true => "true"
  | .boolean false => "false"
  | .number n => numberToString n
  | .string s => s
  | .object primitive => primitive

/-- IsLooselyEqual(x, n) for a Number `n`: a Number is compared by
Number::equal, a String and a Boolean are converted by ToNumber first, an object
by ToPrimitive and then ToNumber; `undefined` and `null` equal no Number. -/
def JSValue.looseEqNumber (x : JSValue) (n : JSNumber) : Bool :=
  match x with
  | .undefined => false
  | .null => false
  | .boolean b => (if b then JSNumber.one else JSNumber.finite false 0 0).equal n
  | .number m => m.equal n
  | .string s => (stringToNumber s).equal n
  | .object primitive => (stringToNumber primitive).equal n

/-- IsLooselyEqual(x, b) for a Boolean `b`, the `x == true` of the script: two
Booleans are compared strictly, otherwise `b` is converted by ToNumber and the
comparison starts again. -/
def JSValue.looseEqBoolean (x : JSValue) (b : Bool) : Bool :=
  match x with
  | .boolean c => c == b
  | _ => x.looseEqNumber (if b then JSNumber.one else JSNumber.finite false 0 0)

/-! ## The page -/

/-- The four actions of the script, one for each class it binds. -/
inductive Action
  | bookmark
  | contact
  | shortlist
  | archive
  deriving DecidableEq

/-- A jQuery click handler of an element: one of the four functions the script
binds, closed over the `csrf_token` of the setup that bound it, or a handler
bound by other code, which this model treats as doing nothing. -/
inductive ClickHandler
  | app (action : Action) (csrf_token : JSValue)
  | other (id : Nat)
  deriving DecidableEq

/-- An element of the page: tag name, classes, the value `.val()` returns, its
inner HTML and the click handlers jQuery holds for it, in binding order. -/
structure Element where
  tag : String
  classes : List String
  value : String
  html : String
  handlers : List ClickHandler
  deriving DecidableEq

/-- The settings of a `$.ajax` call: `method`, `url` and the fields of `data`. -/
structure Request where
  method : String
  url : String
  data : List (String × JSValue)
  deriving DecidableEq

/-- A request in flight: the settings, the action whose `statusCode` map the call
carries and the index of the element its callbacks know as `$this`. -/
structure Sent where
  request : Request
  action : Action
  target : Nat
  deriving DecidableEq

/-- State of the page: the elements, the values of the inputs named
`csrfmiddlewaretoken` in document order, the global variable `clicked_btn`
(unset, or the indices of the matched elements), the number of
`window.location.reload()` calls and the `$.ajax` calls made so far. -/
structure Page where
  elements : List Element
  csrfInputs : List String
  clicked_btn : Option (List Nat)
  reloads : Nat
  sent : List Sent
  deriving DecidableEq

/-- What a callback throws. -/
inductive JSError
  | typeError
  | syntaxError
  deriving DecidableEq

/-- The selector engine behind `$(selector)`, which is jQuery and not part of the
script: the indices of the elements a selector matches, or the error jQuery
throws for a selector it cannot parse. -/
abbrev SelectorEngine := String → List Element → Except JSError (List Nat)

/-- An engine that reads the selector `button[value='v']` as the `button`
elements whose value is `v` and throws nothing, which is how jQuery reads it
when `v` holds neither a quote, a backslash nor a line break. -/
def plainEngine : SelectorEngine := fun selector elements =>
  .ok ((List.range elements.length).filter fun i =>
    match elements[i]? with
    | some e => e.tag == "button" && selector == "button[value='" ++ e.value ++ "']"
    | none => false)

/-- The text `v` of a selector of the form `button[value='v']`. -/
def selectorValue (selector : String) : Option (List Char) :=
  let cs := selector.toList
  let opening := "button[value='".toList
  let closing := "']".toList
  if opening.length + closing.length ≤ cs.length ∧ cs.take opening.length = opening ∧
      cs.drop (cs.length - closing.length) = closing then
    some ((cs.drop opening.length).take (cs.length - opening.length - closing.length))
  else none

/-- An engine that, like jQuery, throws a syntax error for `button[value='v']`
when `v` holds a quote and neither a backslash nor a closing bracket: the quoted
value then ends at that quote and no closing bracket follows it.  On every other
selector it is `plainEngine`. -/
def quoteCheckingEngine : SelectorEngine := fun selector elements =>
  match selectorValue selector with
  | some v =>
    if Char.ofNat 39 ∈ v ∧ Char.ofNat 92 ∉ v ∧ Char.ofNat 93 ∉ v then .error .syntaxError
    else plainEngine selector elements
  | none => plainEngine selector elements

/-- First argument of a `statusCode` callback: whatever jQuery made of the
response.  `primitive` is a boolean, a number or a string; `object` lists the
properties of an object (none for an array or the jqXHR object). -/
inductive Payload
  | undefined
  | null
  | primitive
  | object (fields : List (String × JSValue))
  deriving DecidableEq

/-- Property read `response[key]`: a TypeError on `undefined` and `null`,
`undefined` where the property is missing. -/
def Payload.get (response : Payload) (key : String) : Except JSError JSValue :=
  match response with
  | .undefined => .error .typeError
  | .null => .error .typeError
  | .primitive => .ok .undefined
  | .object fields => .ok ((fields.lookup key).getD .undefined)

/-! ## Setup -/

/-- Result of `.val()` on the matched inputs: the value of the first one,
`undefined` when there is none. -/
def val (inputs : List String) : JSValue :=
  match inputs with
  | [] => .undefined
  | v :: _ => .string v

/-- The chain `$("." + cls).off("click").on("click", h)`: every element of the
class loses all its click handlers and gets `h`. -/
def offOnClick (cls : String) (h : ClickHandler) (elements : List Element) : List Element :=
  elements.map fun e => if cls ∈ e.classes then { e with handlers := [h] } else e

/-- The function passed to `$(document).ready`: it reads `csrf_token` once and
binds the four handlers, in the order of the script. -/
def ready (p : Page) : Page :=
  let csrf_token := val p.csrfInputs
  let es := offOnClick "bookmark" (.app .bookmark csrf_token) p.elements
  let es := offOnClick "contact" (.app .contact csrf_token) es
  let es := offOnClick "shortlist" (.app .shortlist csrf_token) es
  let es := offOnClick "archive" (.app .archive csrf_token) es
  { p with elements := es }

/-! ## Click handlers -/

/-- The call `$.ajax(settings)`: one more request in flight. -/
def Page.ajax (p : Page) (r : Request) (a : Action) (this : Nat) : Page :=
  { p with sent := p.sent ++ [⟨r, a, this⟩] }

/-- The four click handlers.  `this` is the clicked element, `i` its index, which
the callbacks of the request keep as `$this`. -/
def onClick (a : Action) (csrf_token : JSValue) (i : Nat) (this : Element) (p : Page) : Page :=
  match a with
  | .bookmark =>
    let job_id := this.value
    p.ajax ⟨"POST", "/ac/bookmark/",
      [("job_id", .string job_id), ("csrfmiddlewaretoken", csrf_token)]⟩ .bookmark i
  | .contact =>
    let ap_id := this.value
    p.ajax ⟨"POST", "/contact/",
      [("ap_id", .string ap_id), ("csrfmiddlewaretoken", csrf_token)]⟩ .contact i
  | .shortlist =>
    let ap_id := this.value
    p.ajax ⟨"POST", "/shortlist/",
      [("ap_id", .string ap_id), ("csrfmiddlewaretoken", csrf_token)]⟩ .shortlist i
  | .archive =>
    let ap_id := this.value
    p.ajax ⟨"POST", "/archive/",
      [("ap_id", .string ap_id), ("csrfmiddlewaretoken", csrf_token)]⟩ .archive i

/-- One click handler run on the clicked element. -/
def ClickHandler.run (h : ClickHandler) (i : Nat) (this : Element) (p : Page) : Page :=
  match h with
  | .app a csrf_token => onClick a csrf_token i this p
  | .other _ => p

/-- A click on element `i`: its handlers run in binding order. -/
def click (i : Nat) (p : Page) : Page :=
  match p.elements[i]? with
  | none => p
  | some this => this.handlers.foldl (fun q h => h.run i this q) p

/-! ## Response callbacks -/

/-- The call `window.location.reload()`. -/
def Page.reload (p : Page) : Page :=
  { p with reloads := p.reloads + 1 }

/-- The call `$this.html(content)` for the element `$this` of index `i`. -/
def Page.setHtml (p : Page) (i : Nat) (content : String) : Page :=
  { p with elements := p.elements.modify (fun e => { e with html := content }) i }

/-- The selector `"button[value='" + id + "']"`. -/
def valueSelector (id : JSValue) : String :=
  "button[value='" ++ id.toStr ++ "']"

/-- The statement `clicked_btn = $("button[value='" + response[key] + "']")`,
first of every 200 callback: the property read and the selector can throw, and
the variable, declared nowhere, is a global. -/
def lookupClicked (jq : SelectorEngine) (response : Payload) (key : String) (p : Page) :
    Except JSError Page := do
  let id ← response.get key
  let found ← jq (valueSelector id) p.elements
  return { p with clicked_btn := some found }

/-- The callbacks under key 200, `this` being the index of `$this`. -/
def on200 (jq : SelectorEngine) (a : Action) (this : Nat) (response : Payload) (p : Page) :
    Except JSError Page :=
  match a with
  | .bookmark => do
    let p ← lookupClicked jq response "job_id" p
    let is_bookmarked ← response.get "is_bookmarked"
    if is_bookmarked.looseEqBoolean true then
      return p.setHtml this "<i class=\"fas fa-bookmark me-2\"></i>Unsave"
    else
      return p.setHtml this "<i class=\"far fa-bookmark me-2\"></i>Save"
  | .contact => do
    let p ← lookupClicked jq response "ap_id" p
    return p.reload
  | .shortlist => do
    let p ← lookupClicked jq response "ap_id" p
    return p.reload
  | .archive => do
    let p ← lookupClicked jq response "ap_id" p
    return p.reload

/-- The callbacks under key 401: none of them reads its argument. -/
def on401 (a : Action) (_response : Payload) (p : Page) : Except JSError Page :=
  match a with
  | .bookmark => .ok p.reload
  | .contact => .ok p.reload
  | .shortlist => .ok p.reload
  | .archive => .ok p.reload

/-- The `statusCode` map of a request: jQuery calls the callback stored under
the status of the response, if there is one.  A request that fails without a
response has status 0. -/
def statusCode (jq : SelectorEngine) (a : Action) (this : Nat) (status : Nat)
    (response : Payload) (p : Page) : Except JSError Page :=
  if status = 200 then on200 jq a this response p
  else if status = 401 then on401 a response p
  else .ok p

/-! ## Events -/

/-- What happens to the page after setup: a click on an element, the response
to the request sent as number `k`, or other code changing the hidden inputs. -/
inductive Event
  | click (i : Nat)
  | response (k : Nat) (status : Nat) (payload : Payload)
  | setInputs (inputs : List String)

/-- One event.  A callback that throws aborts; the page keeps the state it had
before the callback. -/
def step (jq : SelectorEngine) (p : Page) : Event → Page
  | .click i => click i p
  | .response k status payload =>
    match p.sent[k]? with
    | none => p
    | some s =>
      match statusCode jq s.action s.target status payload p with
      | .ok q => q
      | .error _ => p
  | .setInputs inputs => { p with csrfInputs := inputs }

/-- A sequence of events. -/
def run (jq : SelectorEngine) (p : Page) (events : List Event) : Page :=
  events.foldl (step jq) p

/-- A page as the browser hands it to the script: no handler bound, nothing
sent, `clicked_btn` unset. -/
def load (elements : List (String × List String × String × String)) (inputs : List String) :
    Page :=
  { elements := elements.map fun (tag, classes, value, html) => ⟨tag, classes, value, html, []⟩
    csrfInputs := inputs
    clicked_btn := none
    reloads := 0
    sent := [] }

/-! ## What setup leaves on an element -/

/-- The class each action is bound to. -/
def Action.cls : Action → String
  | .bookmark => "bookmark"
  | .contact => "contact"
  | .shortlist => "shortlist"
  | .archive => "archive"

/-- The action whose handler an element holds after setup: each binding first
removes all click handlers of the elements of its class, so the last of the
four classes the element carries, in the order of the script, decides. -/
def boundAction (classes : List String) : Option Action :=
  if "archive" ∈ classes then some .archive
  else if "shortlist" ∈ classes then some .shortlist
  else if "contact" ∈ classes then some .contact
  else if "bookmark" ∈ classes then some .bookmark
  else none

/-- An element after setup with token `csrf_token`: one handler, that of its
bound action, when it carries one of the four classes, and its former handlers
otherwise. -/
def rebind (csrf_token : JSValue) (e : Element) : Element :=
  match boundAction e.classes with
  | some a => { e with handlers := [.app a csrf_token] }
  | none => e

/-! ## Auxiliary facts -/

/-- A click on an element holding exactly one handler of the script runs that
handler. -/
theorem click_bound (a : Action) (t : JSValue) (i : Nat) (this : Element) (p : Page)
    (hthis : p.elements[i]? = some this) (hbound : this.handlers = [.app a t]) :
    click i p = onClick a t i this p := by
  simp [click, hthis, hbound, ClickHandler.run]

/-- A click handler changes nothing but the list of requests, which gets one
more entry. -/
theorem onClick_eq (a : Action) (t : JSValue) (i : Nat) (this : Element) (p : Page) :
    ∃ r, onClick a t i this p = { p with sent := p.sent ++ [⟨r, a, i⟩] } := by
  cases a <;> exact ⟨_, rfl⟩

/-- The element `$this.html(content)` writes to. -/
theorem setHtml_getElem?_eq (p : Page) (i : Nat) (content : String) :
    (p.setHtml i content).elements[i]? =
      (p.elements[i]?).map fun e => { e with html := content } := by
  simp [Page.setHtml]

/-- The elements `$this.html(content)` leaves alone. -/
theorem setHtml_getElem?_ne (p : Page) (i j : Nat) (content : String) (h : j ≠ i) :
    (p.setHtml i content).elements[j]? = p.elements[j]? := by
  simp [Page.setHtml, List.getElem?_modify_ne _ _ (Ne.symm h)]

/-- The 200 callback of toggle-save when the lookup of its first statement
completes: `clicked_btn` holds the elements found and `$this` gets the label
the test of `is_bookmarked` selects. -/
theorem bookmark_200_completes (jq : SelectorEngine) (p : Page) (this : Nat)
    (fields : List (String × JSValue)) (found : List Nat)
    (hfind : jq (valueSelector ((fields.lookup "job_id").getD .undefined)) p.elements
      = .ok found) :
    statusCode jq .bookmark this 200 (.object fields) p =
      .ok (({ p with clicked_btn := some found } : Page).setHtml this
        (if ((fields.lookup "is_bookmarked").getD .undefined).looseEqBoolean true
          then "<i class=\"fas fa-bookmark me-2\"></i>Unsave"
          else "<i class=\"far fa-bookmark me-2\"></i>Save")) := by
  simp only [statusCode, on200, lookupClicked, Payload.get, if_true, bind, Except.bind, hfind,
    pure, Except.pure]
  split <;> rfl

/-! ## The request a click sends -/

/-- C1: a click on an element that holds the handler of one of the four
actions, bound with token `t`, sends exactly one request and changes nothing
else: a POST to `/ac/bookmark/`, `/contact/`, `/shortlist/` or `/archive/`
whose data has two fields, `job_id` (toggle-save) or `ap_id` (the three
transitions) with the value of the element, and `csrfmiddlewaretoken` with
`t`. -/
theorem click_sends_one_post (a : Action) (t : JSValue) (i : Nat) (this : Element) (p : Page)
    (hthis : p.elements[i]? = some this) (hbound : this.handlers = [.app a t]) :
    click i p =
      { p with
        sent := p.sent ++
          [⟨⟨"POST",
              (match a with
                | .bookmark => "/ac/bookmark/"
                | .contact => "/contact/"
                | .shortlist => "/shortlist/"
                | .archive => "/archive/"),
              [((match a with
                  | .bookmark => "job_id"
                  | .contact => "ap_id"
                  | .shortlist => "ap_id"
                  | .archive => "ap_id"), .string this.value),
                ("csrfmiddlewaretoken", t)]⟩, a, i⟩] } := by
  cases a <;> simp [click, hthis, hbound, ClickHandler.run, onClick, Page.ajax]

/-- Witness of C1: the archive button of value `9` on a page with token `tok`. -/
theorem click_sends_one_post_witness :
    click 0 ⟨[⟨"button", ["archive"], "9", "Archive", [.app .archive (.string "tok")]⟩],
        ["tok"], none, 0, []⟩ =
      ⟨[⟨"button", ["archive"], "9", "Archive", [.app .archive (.string "tok")]⟩],
        ["tok"], none, 0,
        [⟨⟨"POST", "/archive/", [("ap_id", .string "9"), ("csrfmiddlewaretoken", .string "tok")]⟩,
          .archive, 0⟩]⟩ :=
  click_sends_one_post .archive (.string "tok") 0
    ⟨"button", ["archive"], "9", "Archive", [.app .archive (.string "tok")]⟩
    ⟨[⟨"button", ["archive"], "9", "Archive", [.app .archive (.string "tok")]⟩],
      ["tok"], none, 0, []⟩ rfl rfl

/-! ## Responses with status 401 and with other statuses -/

/-- C5: for each of the four actions and whatever the callback receives, the
callback for status 401 calls `window.location.reload()` once and changes
nothing else of the page, so no element's content; a 401 delivered for a
request in flight does exactly that to the page. -/
theorem unauthorized_reloads (jq : SelectorEngine) (a : Action) (this : Nat)
    (payload : Payload) (p : Page) (k : Nat) :
    statusCode jq a this 401 payload p = .ok { p with reloads := p.reloads + 1 } ∧
      (∀ s : Sent, p.sent[k]? = some s →
        step jq p (.response k 401 payload) = { p with reloads := p.reloads + 1 }) ∧
      (step jq p (.response k 401 payload)).elements = p.elements := by
  have hcb : ∀ b : Action, ∀ j : Nat,
      statusCode jq b j 401 payload p = .ok { p with reloads := p.reloads + 1 } := by
    intro b j
    cases b <;> simp [statusCode, on401, Page.reload]
  refine ⟨hcb a this, ?_, ?_⟩
  · intro s hs
    simp only [step, hs, hcb]
  · simp only [step]
    cases hk : p.sent[k]? with
    | none => rfl
    | some s => simp only [hcb]

/-- C6: for each of the four actions, a status other than 200 and 401 (0 for a
request that failed without a response) finds no callback in the `statusCode`
map: the page after the response is the page before it. -/
theorem other_status_unhandled (jq : SelectorEngine) (a : Action) (this : Nat) (status : Nat)
    (payload : Payload) (p : Page) (k : Nat) (h200 : status ≠ 200) (h401 : status ≠ 401) :
    statusCode jq a this status payload p = .ok p ∧
      step jq p (.response k status payload) = p := by
  constructor
  · simp [statusCode, h200, h401]
  · simp only [step]
    cases hk : p.sent[k]? with
    | none => rfl
    | some s => simp [statusCode, h200, h401]

/-- Witness of C6: status 500 for the answer to a toggle-save request in flight. -/
theorem other_status_unhandled_witness :
    statusCode plainEngine .bookmark 0 500 .null
        ⟨[⟨"button", ["bookmark"], "1", "Save", [.app .bookmark (.string "tok")]⟩], ["tok"], none,
          0, [⟨⟨"POST", "/ac/bookmark/", []⟩, .bookmark, 0⟩]⟩ =
        .ok ⟨[⟨"button", ["bookmark"], "1", "Save", [.app .bookmark (.string "tok")]⟩], ["tok"],
          none, 0, [⟨⟨"POST", "/ac/bookmark/", []⟩, .bookmark, 0⟩]⟩ ∧
      step plainEngine
        ⟨[⟨"button", ["bookmark"], "1", "Save", [.app .bookmark (.string "tok")]⟩], ["tok"], none,
          0, [⟨⟨"POST", "/ac/bookmark/", []⟩, .bookmark, 0⟩]⟩
        (.response 0 500 .null) =
        ⟨[⟨"button", ["bookmark"], "1", "Save", [.app .bookmark (.string "tok")]⟩], ["tok"], none,
          0, [⟨⟨"POST", "/ac/bookmark/", []⟩, .bookmark, 0⟩]⟩ :=
  other_status_unhandled plainEngine .bookmark 0 500 .null
    ⟨[⟨"button", ["bookmark"], "1", "Save", [.app .bookmark (.string "tok")]⟩], ["tok"], none, 0,
      [⟨⟨"POST", "/ac/bookmark/", []⟩, .bookmark, 0⟩]⟩ 0 (by decide) (by decide)

/-! ## The 200 callback of toggle-save -/

/-- Counterexample to C2: buttons `1` (showing Save) and `2` (showing Unsave);
button `1` is clicked and the response echoes `job_id = "2"` with
`is_bookmarked = false`.  The element the echoed identifier names, button `2`,
still shows Unsave with the solid icon. -/
theorem echoed_button_keeps_label :
    (run plainEngine
        (ready (load
          [("button", ["bookmark"], "1", "<i class=\"far fa-bookmark me-2\"></i>Save"),
            ("button", ["bookmark"], "2", "<i class=\"fas fa-bookmark me-2\"></i>Unsave")]
          ["tok"]))
        [.click 0,
          .response 0 200
            (.object [("job_id", .string "2"), ("is_bookmarked", .boolean false)])]).elements.map
        (fun e => (e.value, e.html)) =
      [("1", "<i class=\"far fa-bookmark me-2\"></i>Save"),
        ("2", "<i class=\"fas fa-bookmark me-2\"></i>Unsave")] := by
  decide

/-- C2, amended: for a 200 response to toggle-save that is an object with a
boolean `is_bookmarked`, and whose echoed `job_id` gives a selector jQuery
accepts, the callback completes and the clicked element `$this` gets the
content `<i class="fas fa-bookmark me-2"></i>Unsave` when the boolean is true
and `<i class="far fa-bookmark me-2"></i>Save` when it is false, whatever its
content was before. -/
theorem toggle_200_labels_clicked (jq : SelectorEngine) (p : Page) (this : Nat) (e : Element)
    (fields : List (String × JSValue)) (b : Bool) (found : List Nat)
    (hthis : p.elements[this]? = some e)
    (hfind : jq (valueSelector ((fields.lookup "job_id").getD .undefined)) p.elements
      = .ok found)
    (hbool : fields.lookup "is_bookmarked" = some (.boolean b)) :
    ∃ q, statusCode jq .bookmark this 200 (.object fields) p = .ok q ∧
      q.elements[this]? = some
        { e with
          html :=
            if b then "<i class=\"fas fa-bookmark me-2\"></i>Unsave"
            else "<i class=\"far fa-bookmark me-2\"></i>Save" } := by
  refine ⟨_, bookmark_200_completes jq p this fields found hfind, ?_⟩
  rw [setHtml_getElem?_eq]
  cases b <;> simp [hthis, hbool, JSValue.looseEqBoolean]

/-- Witness of C2, amended: the button of value `42` showing Save, and the
response `job_id = "42"`, `is_bookmarked = true`. -/
theorem toggle_200_labels_clicked_witness :
    ∃ q, statusCode plainEngine .bookmark 0 200
        (.object [("job_id", .string "42"), ("is_bookmarked", .boolean true)])
        ⟨[⟨"button", ["bookmark"], "42", "<i class=\"far fa-bookmark me-2\"></i>Save", []⟩],
          ["tok"], none, 0, []⟩ = .ok q ∧
      q.elements[0]? = some
        { (⟨"button", ["bookmark"], "42", "<i class=\"far fa-bookmark me-2\"></i>Save", []⟩ :
              Element) with
          html :=
            if true then "<i class=\"fas fa-bookmark me-2\"></i>Unsave"
            else "<i class=\"far fa-bookmark me-2\"></i>Save" } :=
  toggle_200_labels_clicked plainEngine
    ⟨[⟨"button", ["bookmark"], "42", "<i class=\"far fa-bookmark me-2\"></i>Save", []⟩],
      ["tok"], none, 0, []⟩ 0
    ⟨"button", ["bookmark"], "42", "<i class=\"far fa-bookmark me-2\"></i>Save", []⟩
    [("job_id", .string "42"), ("is_bookmarked", .boolean true)] true [0] rfl rfl rfl

/-- Counterexample to C3: buttons `1` and `2`, both showing Save; button `1` is
clicked and the response echoes `job_id = "2"` with `is_bookmarked = true`.
The clicked button `1` now shows Unsave, and button `2`, which the echoed
identifier names, is as it was. -/
theorem clicked_button_changes_not_echoed :
    (run plainEngine
        (ready (load
          [("button", ["bookmark"], "1", "<i class=\"far fa-bookmark me-2\"></i>Save"),
            ("button", ["bookmark"], "2", "<i class=\"far fa-bookmark me-2\"></i>Save")]
          ["tok"]))
        [.click 0,
          .response 0 200
            (.object [("job_id", .string "2"), ("is_bookmarked", .boolean true)])]).elements.map
        (fun e => (e.value, e.html)) =
      [("1", "<i class=\"fas fa-bookmark me-2\"></i>Unsave"),
        ("2", "<i class=\"far fa-bookmark me-2\"></i>Save")] := by
  decide

/-- C3, amended: the success callback of toggle-save writes to the event target
`$this`, not to the elements looked up through the echoed identifier, which it
only stores in `clicked_btn`.  For a click on a toggle-save button of value `v`
and a 200 response, an object whose `job_id` converts to a string `w ≠ v` and
gives a selector jQuery accepts: the clicked button gets the new label, every
other element is left as it was, and so is every element whose value is `w`. -/
theorem toggle_200_writes_event_target (jq : SelectorEngine) (p : Page) (i : Nat) (e : Element)
    (t : JSValue) (fields : List (String × JSValue)) (found : List Nat)
    (hthis : p.elements[i]? = some e) (hbound : e.handlers = [.app .bookmark t])
    (hfind : jq (valueSelector ((fields.lookup "job_id").getD .undefined)) p.elements
      = .ok found)
    (hdiff : ((fields.lookup "job_id").getD .undefined).toStr ≠ e.value) :
    ∃ q, run jq p [.click i, .response p.sent.length 200 (.object fields)] = q ∧
      q.elements[i]? = some
        { e with
          html :=
            if ((fields.lookup "is_bookmarked").getD .undefined).looseEqBoolean true
              then "<i class=\"fas fa-bookmark me-2\"></i>Unsave"
              else "<i class=\"far fa-bookmark me-2\"></i>Save" } ∧
      (∀ j : Nat, j ≠ i → q.elements[j]? = p.elements[j]?) ∧
      (∀ (j : Nat) (e' : Element), p.elements[j]? = some e' →
        e'.value = ((fields.lookup "job_id").getD .undefined).toStr →
        q.elements[j]? = some e') := by
  obtain ⟨r, hr⟩ := onClick_eq .bookmark t i e p
  have hclick : click i p = { p with sent := p.sent ++ [⟨r, .bookmark, i⟩] } := by
    rw [click_bound .bookmark t i e p hthis hbound, hr]
  have hcb := bookmark_200_completes jq { p with sent := p.sent ++ [⟨r, .bookmark, i⟩] } i
    fields found hfind
  have hrun : run jq p [.click i, .response p.sent.length 200 (.object fields)] =
      (({ p with sent := p.sent ++ [⟨r, .bookmark, i⟩], clicked_btn := some found } :
          Page).setHtml i
        (if ((fields.lookup "is_bookmarked").getD .undefined).looseEqBoolean true
          then "<i class=\"fas fa-bookmark me-2\"></i>Unsave"
          else "<i class=\"far fa-bookmark me-2\"></i>Save")) := by
    simp only [run, List.foldl, step, hclick, List.getElem?_concat_length, hcb]
  refine ⟨_, hrun, ?_, ?_, ?_⟩
  · rw [setHtml_getElem?_eq]
    simp [hthis]
  · intro j hj
    rw [setHtml_getElem?_ne _ _ _ _ hj]
  · intro j e' hj hv
    have hji : j ≠ i := by
      rintro rfl
      rw [hthis] at hj
      cases hj
      exact hdiff hv.symm
    rw [setHtml_getElem?_ne _ _ _ _ hji]
    exact hj

/-- Witness of C3, amended: buttons `1` and `2`, a click on button `1`, and the
response `job_id = "2"`, `is_bookmarked = true`. -/
theorem toggle_200_writes_event_target_witness :
    ∃ q, run plainEngine
        ⟨[⟨"button", ["bookmark"], "1", "Save", [.app .bookmark (.string "tok")]⟩,
            ⟨"button", ["bookmark"], "2", "Save", [.app .bookmark (.string "tok")]⟩],
          ["tok"], none, 0, []⟩
        [.click 0,
          .response 0 200
            (.object [("job_id", .string "2"), ("is_bookmarked", .boolean true)])] = q ∧
      q.elements[0]? = some
        ⟨"button", ["bookmark"], "1", "<i class=\"fas fa-bookmark me-2\"></i>Unsave",
          [.app .bookmark (.string "tok")]⟩ ∧
      (∀ j : Nat, j ≠ 0 → q.elements[j]? =
        [(⟨"button", ["bookmark"], "1", "Save", [.app .bookmark (.string "tok")]⟩ : Element),
          ⟨"button", ["bookmark"], "2", "Save", [.app .bookmark (.string "tok")]⟩][j]?) ∧
      (∀ (j : Nat) (e' : Element),
        [(⟨"button", ["bookmark"], "1", "Save", [.app .bookmark (.string "tok")]⟩ : Element),
          ⟨"button", ["bookmark"], "2", "Save", [.app .bookmark (.string "tok")]⟩][j]? = some e' →
        e'.value = "2" → q.elements[j]? = some e') :=
  toggle_200_writes_event_target plainEngine
    ⟨[⟨"button", ["bookmark"], "1", "Save", [.app .bookmark (.string "tok")]⟩,
        ⟨"button", ["bookmark"], "2", "Save", [.app .bookmark (.string "tok")]⟩],
      ["tok"], none, 0, []⟩ 0
    ⟨"button", ["bookmark"], "1", "Save", [.app .bookmark (.string "tok")]⟩ (.string "tok")
    [("job_id", .string "2"), ("is_bookmarked", .boolean true)] [1] rfl rfl rfl (by decide)

/-- Counterexample to C9: a toggle-save button showing Save is clicked and the
response carries `is_bookmarked = 1`, a number loosely equal to `true`, with
`job_id = "a'b"`.  The selector built from that identifier is one jQuery
rejects, the callback throws in its first statement, and the button still shows
Save, not Unsave. -/
theorem loose_true_without_relabel :
    (JSValue.number (.finite false 1 0)).looseEqBoolean true = true ∧
      (run quoteCheckingEngine
        (ready (load
          [("button", ["bookmark"], "42", "<i class=\"far fa-bookmark me-2\"></i>Save")]
          ["tok"]))
        [.click 0,
          .response 0 200
            (.object
              [("job_id", .string "a'b"),
                ("is_bookmarked", .number (.finite false 1 0))])]).elements.map
        (fun e => (e.value, e.html)) =
      [("42", "<i class=\"far fa-bookmark me-2\"></i>Save")] := by
  decide

/-- C9, amended: the success callback of toggle-save tests `is_bookmarked` with
`==` against `true`.  For a 200 response on which the callback reaches the test
(the response is an object and its `job_id` gives a selector jQuery accepts),
the clicked element gets the Unsave label exactly when the value of
`is_bookmarked`, `undefined` for a missing field, is loosely equal to `true`,
and the Save label otherwise.  The number 1 and the string `"1"` are loosely
equal to `true`; the string `"true"`, the number 2, `null` and `undefined` are
not. -/
theorem toggle_200_tests_loose_equality (jq : SelectorEngine) (p : Page) (this : Nat)
    (e : Element) (fields : List (String × JSValue)) (found : List Nat)
    (hthis : p.elements[this]? = some e)
    (hfind : jq (valueSelector ((fields.lookup "job_id").getD .undefined)) p.elements
      = .ok found) :
    (∃ q, statusCode jq .bookmark this 200 (.object fields) p = .ok q ∧
      q.elements[this]? = some
        { e with
          html :=
            if ((fields.lookup "is_bookmarked").getD .undefined).looseEqBoolean true
              then "<i class=\"fas fa-bookmark me-2\"></i>Unsave"
              else "<i class=\"far fa-bookmark me-2\"></i>Save" }) ∧
      (JSValue.number (.finite false 1 0)).looseEqBoolean true = true ∧
      (JSValue.string "1").looseEqBoolean true = true ∧
      (JSValue.string "true").looseEqBoolean true = false ∧
      (JSValue.number (.finite false 2 0)).looseEqBoolean true = false ∧
      JSValue.null.looseEqBoolean true = false ∧
      ((([] : List (String × JSValue)).lookup "is_bookmarked").getD .undefined).looseEqBoolean
        true = false := by
  refine ⟨⟨_, bookmark_200_completes jq p this fields found hfind, ?_⟩, ?_⟩
  · rw [setHtml_getElem?_eq]
    simp [hthis]
  · decide

/-- Witness of C9: the button of value `42` showing Save and the response
`job_id = "42"`, `is_bookmarked = "1"`, a string. -/
theorem toggle_200_tests_loose_equality_witness :
    (∃ q, statusCode plainEngine .bookmark 0 200
          (.object [("job_id", .string "42"), ("is_bookmarked", .string "1")])
          ⟨[⟨"button", ["bookmark"], "42", "<i class=\"far fa-bookmark me-2\"></i>Save", []⟩],
            ["tok"], none, 0, []⟩ = .ok q ∧
        q.elements[0]? = some
          ⟨"button", ["bookmark"], "42", "<i class=\"fas fa-bookmark me-2\"></i>Unsave", []⟩) ∧
      (JSValue.number (.finite false 1 0)).looseEqBoolean true = true ∧
      (JSValue.string "1").looseEqBoolean true = true ∧
      (JSValue.string "true").looseEqBoolean true = false ∧
      (JSValue.number (.finite false 2 0)).looseEqBoolean true = false ∧
      JSValue.null.looseEqBoolean true = false ∧
      ((([] : List (String × JSValue)).lookup "is_bookmarked").getD .undefined).looseEqBoolean
        true = false :=
  toggle_200_tests_loose_equality plainEngine
    ⟨[⟨"button", ["bookmark"], "42", "<i class=\"far fa-bookmark me-2\"></i>Save", []⟩],
      ["tok"], none, 0, []⟩ 0
    ⟨"button", ["bookmark"], "42", "<i class=\"far fa-bookmark me-2\"></i>Save", []⟩
    [("job_id", .string "42"), ("is_bookmarked", .string "1")] [0] rfl rfl

/-! ## The 200 callbacks of the three transitions -/

/-- The 200 callback of a transition when the lookup of its first statement
completes: `clicked_btn` holds the elements found and the page reloads. -/
theorem transition_200_completes (jq : SelectorEngine) (a : Action) (p : Page) (this : Nat)
    (fields : List (String × JSValue)) (found : List Nat) (ha : a ≠ .bookmark)
    (hfind : jq (valueSelector ((fields.lookup "ap_id").getD .undefined)) p.elements
      = .ok found) :
    statusCode jq a this 200 (.object fields) p =
      .ok { p with clicked_btn := some found, reloads := p.reloads + 1 } := by
  cases a <;>
    first
      | exact absurd rfl ha
      | simp [statusCode, on200, lookupClicked, Payload.get, bind, Except.bind, hfind, pure,
          Except.pure, Page.reload]

/-- The 200 callback of every action throws a TypeError on the payloads `null`
and `undefined`, whatever the engine. -/
theorem on200_nullish_throws (jq : SelectorEngine) (a : Action) (this : Nat) (p : Page) :
    statusCode jq a this 200 .null p = .error .typeError ∧
      statusCode jq a this 200 .undefined p = .error .typeError := by
  cases a <;> simp [statusCode, on200, lookupClicked, Payload.get, bind, Except.bind]

/-- C4 at the failing input: a contact, a shortlist and an archive button, each
clicked and answered with status 200 and the payload `null` (the JSON text
`null`).  Reading `response["ap_id"]` throws before `window.location.reload()`
is reached, so no reload is counted; the same clicks answered with an object
reload three times. -/
theorem transition_200_null_payload_no_reload :
    (run plainEngine
        (ready (load
          [("button", ["contact"], "7", "Contact"), ("button", ["shortlist"], "8", "Shortlist"),
            ("button", ["archive"], "9", "Archive")]
          ["tok"]))
        [.click 0, .response 0 200 .null, .click 1, .response 1 200 .null, .click 2,
          .response 2 200 .null]).reloads = 0 ∧
      (run plainEngine
        (ready (load
          [("button", ["contact"], "7", "Contact"), ("button", ["shortlist"], "8", "Shortlist"),
            ("button", ["archive"], "9", "Archive")]
          ["tok"]))
        [.click 0, .response 0 200 (.object [("ap_id", .string "7")]), .click 1,
          .response 1 200 (.object []), .click 2,
          .response 2 200 (.object [("ap_id", .string "none")])]).reloads = 3 := by
  decide

/-! ## The global variable `clicked_btn` -/

/-- C7 at the failing input: a toggle-save button `5` and a contact button `7`.
The variable `clicked_btn` is unset after setup; the 200 callback of the contact
request sets it to the elements matching `button[value='7']`, and the 200
callback of the toggle-save request then overwrites it with those matching
`button[value='5']`: a variable of the page that two handlers write. -/
theorem handlers_write_global_clicked_btn :
    (ready (load
        [("button", ["bookmark"], "5", "Save"), ("button", ["contact"], "7", "Contact")]
        ["tok"])).clicked_btn = none ∧
      (run plainEngine
        (ready (load
          [("button", ["bookmark"], "5", "Save"), ("button", ["contact"], "7", "Contact")]
          ["tok"]))
        [.click 1, .response 0 200 (.object [("ap_id", .string "7")])]).clicked_btn
        = some [1] ∧
      (run plainEngine
        (ready (load
          [("button", ["bookmark"], "5", "Save"), ("button", ["contact"], "7", "Contact")]
          ["tok"]))
        [.click 1, .response 0 200 (.object [("ap_id", .string "7")]), .click 0,
          .response 1 200
            (.object [("job_id", .string "5"), ("is_bookmarked", .boolean true)])]).clicked_btn
        = some [0] := by
  decide

/-! ## Setup run once or several times -/

/-- The four bindings of setup, element by element. -/
theorem ready_eq (p : Page) :
    ready p = { p with elements := p.elements.map (rebind (val p.csrfInputs)) } := by
  simp only [ready, offOnClick, List.map_map]
  congr 1
  apply List.map_congr_left
  intro e _
  by_cases h1 : "bookmark" ∈ e.classes <;> by_cases h2 : "contact" ∈ e.classes <;>
    by_cases h3 : "shortlist" ∈ e.classes <;> by_cases h4 : "archive" ∈ e.classes <;>
    simp [rebind, boundAction, h1, h2, h3, h4]

/-- Binding again changes nothing on an element already bound. -/
theorem rebind_rebind (t : JSValue) (e : Element) : rebind t (rebind t e) = rebind t e := by
  unfold rebind
  cases h : boundAction e.classes <;> simp [h]

/-- Setup run on a page that setup has run on gives that page. -/
theorem ready_ready (p : Page) : ready (ready p) = ready p := by
  rw [ready_eq (ready p), ready_eq p]
  simp [List.map_map, Function.comp_def, rebind_rebind]

/-- Setup run once or more gives what one run gives. -/
theorem ready_iterate (p : Page) (n : Nat) : ready^[n + 1] p = ready p := by
  induction n with
  | zero => rfl
  | succ k ih => rw [Function.iterate_succ_apply', ih, ready_ready]

/-- Counterexample to C10: a button carrying both `bookmark` and `contact`.
After setup it holds one click handler, the one of `.contact`, and a click
sends one request, to `/contact/`: not one for each of its two classes. -/
theorem two_classes_one_request :
    ((ready (load [("button", ["bookmark", "contact"], "7", "Save")] ["tok"])).elements.map
        Element.handlers = [[.app .contact (.string "tok")]]) ∧
      (click 0 (ready (load [("button", ["bookmark", "contact"], "7", "Save")]
        ["tok"]))).sent.map (fun s => s.request.url) = ["/contact/"] := by
  decide

/-- C10, amended: setup run `n ≥ 1` times gives the page one run gives.  Every
element carrying at least one of the four classes then holds exactly one click
handler, whatever it held before: the handler of the last of its classes in
binding order (bookmark, contact, shortlist, archive), which is its class when
it carries only one.  A click on it sends exactly one request, that of this
handler.  An element carrying none of the classes keeps its handlers. -/
theorem setup_repeated_binds_one_handler (p : Page) (n : Nat) (hn : 1 ≤ n) :
    ready^[n] p = ready p ∧
      (∀ (i : Nat) (e : Element) (a : Action), p.elements[i]? = some e →
        boundAction e.classes = some a →
        (ready^[n] p).elements[i]? = some { e with handlers := [.app a (val p.csrfInputs)] } ∧
          click i (ready^[n] p) =
            onClick a (val p.csrfInputs) i { e with handlers := [.app a (val p.csrfInputs)] }
              (ready p) ∧
          (click i (ready^[n] p)).sent.length = p.sent.length + 1) ∧
      (∀ (i : Nat) (e : Element), p.elements[i]? = some e → boundAction e.classes = none →
        (ready^[n] p).elements[i]? = some e) ∧
      (∀ (a : Action) (classes : List String), a.cls ∈ classes →
        (∀ b : Action, b ≠ a → b.cls ∉ classes) → boundAction classes = some a) ∧
      (∀ classes : List String,
        boundAction classes = none ↔ ∀ b : Action, b.cls ∉ classes) := by
  obtain ⟨k, rfl⟩ : ∃ k, n = k + 1 := ⟨n - 1, by omega⟩
  have hit := ready_iterate p k
  refine ⟨hit, ?_, ?_, ?_, ?_⟩
  · intro i e a he ha
    have hel : (ready p).elements[i]? =
        some { e with handlers := [.app a (val p.csrfInputs)] } := by
      rw [ready_eq]
      simp [he, rebind, ha]
    rw [hit]
    refine ⟨hel, click_bound a _ i _ _ hel rfl, ?_⟩
    rw [click_bound a _ i _ _ hel rfl]
    obtain ⟨r, hr⟩ := onClick_eq a (val p.csrfInputs) i
      { e with handlers := [.app a (val p.csrfInputs)] } (ready p)
    rw [hr, ready_eq]
    simp
  · intro i e he ha
    rw [hit, ready_eq]
    simp [he, rebind, ha]
  · intro a classes hmem hnot
    have hb := hnot .bookmark
    have hc := hnot .contact
    have hs := hnot .shortlist
    have har := hnot .archive
    cases a <;> simp_all [Action.cls, boundAction]
  · intro classes
    constructor
    · intro h b
      by_cases h1 : "bookmark" ∈ classes <;> by_cases h2 : "contact" ∈ classes <;>
        by_cases h3 : "shortlist" ∈ classes <;> by_cases h4 : "archive" ∈ classes <;>
        simp [boundAction, h1, h2, h3, h4] at h
      cases b <;> simp [Action.cls, h1, h2, h3, h4]
    · intro h
      have hb := h .bookmark
      have hc := h .contact
      have hs := h .shortlist
      have har := h .archive
      simp_all [Action.cls, boundAction]

/-- Witness of C10, amended: setup run three times on a page with a contact
button that already holds two handlers. -/
theorem setup_repeated_binds_one_handler_witness :
    (ready^[3] ⟨[⟨"button", ["contact"], "7", "Contact", [.other 0, .app .contact .undefined]⟩],
        ["tok"], none, 0, []⟩).elements =
      [⟨"button", ["contact"], "7", "Contact", [.app .contact (.string "tok")]⟩] :=
  congrArg Page.elements
    (setup_repeated_binds_one_handler
      ⟨[⟨"button", ["contact"], "7", "Contact", [.other 0, .app .contact .undefined]⟩],
        ["tok"], none, 0, []⟩ 3 (by decide)).1

/-! ## What the response callbacks write -/

/-- The first statement of a 200 callback, when it completes, writes
`clicked_btn` and nothing else. -/
theorem lookupClicked_frame (jq : SelectorEngine) (response : Payload) (key : String)
    (p q : Page) (h : lookupClicked jq response key p = .ok q) :
    ∃ found, q = { p with clicked_btn := some found } := by
  unfold lookupClicked at h
  cases hg : response.get key with
  | error err => simp [hg, bind, Except.bind] at h
  | ok id =>
    cases hj : jq (valueSelector id) p.elements with
    | error err => simp [hg, hj, bind, Except.bind] at h
    | ok found =>
      simp only [hg, hj, bind, Except.bind, pure, Except.pure, Except.ok.injEq] at h
      exact ⟨found, h.symm⟩

/-- The 200 callback of toggle-save, when it completes, writes `clicked_btn` and
the content of `$this`: it does not reload. -/
theorem bookmark_200_frame (jq : SelectorEngine) (this : Nat) (response : Payload)
    (p q : Page) (h : on200 jq .bookmark this response p = .ok q) :
    ∃ found content, q = ({ p with clicked_btn := some found } : Page).setHtml this content := by
  simp only [on200, bind, Except.bind] at h
  cases hl : lookupClicked jq response "job_id" p with
  | error err => simp [hl] at h
  | ok p1 =>
    obtain ⟨found, rfl⟩ := lookupClicked_frame jq response "job_id" p p1 hl
    simp only [hl] at h
    cases hg : response.get "is_bookmarked" with
    | error err => simp [hg] at h
    | ok v =>
      simp only [hg] at h
      split at h <;>
        · simp only [pure, Except.pure, Except.ok.injEq] at h
          exact ⟨found, _, h.symm⟩

/-- The 200 callback of a transition, when it completes, writes `clicked_btn`
and reloads: it changes no element. -/
theorem transition_200_frame (jq : SelectorEngine) (a : Action) (this : Nat)
    (response : Payload) (p q : Page) (ha : a ≠ .bookmark)
    (h : on200 jq a this response p = .ok q) :
    ∃ found, q = { p with clicked_btn := some found, reloads := p.reloads + 1 } := by
  cases a with
  | bookmark => exact absurd rfl ha
  | contact =>
    simp only [on200, bind, Except.bind] at h
    cases hl : lookupClicked jq response "ap_id" p with
    | error err => simp [hl] at h
    | ok p1 =>
      obtain ⟨found, rfl⟩ := lookupClicked_frame jq response "ap_id" p p1 hl
      simp only [hl, pure, Except.pure, Except.ok.injEq] at h
      exact ⟨found, h.symm⟩
  | shortlist =>
    simp only [on200, bind, Except.bind] at h
    cases hl : lookupClicked jq response "ap_id" p with
    | error err => simp [hl] at h
    | ok p1 =>
      obtain ⟨found, rfl⟩ := lookupClicked_frame jq response "ap_id" p p1 hl
      simp only [hl, pure, Except.pure, Except.ok.injEq] at h
      exact ⟨found, h.symm⟩
  | archive =>
    simp only [on200, bind, Except.bind] at h
    cases hl : lookupClicked jq response "ap_id" p with
    | error err => simp [hl] at h
    | ok p1 =>
      obtain ⟨found, rfl⟩ := lookupClicked_frame jq response "ap_id" p p1 hl
      simp only [hl, pure, Except.pure, Except.ok.injEq] at h
      exact ⟨found, h.symm⟩

/-- A function applied to one element of a list is not seen through a map it
does not change. -/
theorem map_modify_of_preserved {α β : Type} (g : α → β) (f : α → α) (hf : ∀ x, g (f x) = g x)
    (l : List α) : ∀ i : Nat, (l.modify f i).map g = l.map g := by
  induction l with
  | nil => intro i; simp
  | cons x xs ih =>
    intro i
    cases i with
    | zero => simp [hf]
    | succ j => simp [ih j]

/-- The call `$this.html(content)` leaves the click handlers of every element as
they are. -/
theorem setHtml_handlers (p : Page) (i : Nat) (content : String) :
    (p.setHtml i content).elements.map Element.handlers = p.elements.map Element.handlers :=
  map_modify_of_preserved Element.handlers (fun e => { e with html := content })
    (fun _ => rfl) p.elements i

/-- What a callback of a `statusCode` map leaves as it is: the requests, the
hidden inputs and the click handlers of every element, whatever the action; the
reload count when toggle-save is answered with 200; every element when the
action is a transition or the status is not 200. -/
theorem statusCode_frame (jq : SelectorEngine) (a : Action) (this : Nat) (status : Nat)
    (payload : Payload) (p q : Page) (h : statusCode jq a this status payload p = .ok q) :
    q.sent = p.sent ∧ q.csrfInputs = p.csrfInputs ∧
      q.elements.map Element.handlers = p.elements.map Element.handlers ∧
      (a = .bookmark → status = 200 → q.reloads = p.reloads) ∧
      ((a ≠ .bookmark ∨ status ≠ 200) → q.elements = p.elements) := by
  unfold statusCode at h
  split at h
  · rename_i h200
    by_cases ha : a = .bookmark
    · subst ha
      obtain ⟨found, content, rfl⟩ := bookmark_200_frame jq this payload p q h
      exact ⟨rfl, rfl, setHtml_handlers _ _ _, fun _ _ => rfl,
        fun hne => absurd h200 (hne.resolve_left (fun hh => hh rfl))⟩
    · obtain ⟨found, rfl⟩ := transition_200_frame jq a this payload p q ha h
      exact ⟨rfl, rfl, rfl, fun hh => absurd hh ha, fun _ => rfl⟩
  · rename_i h200
    split at h
    · cases a <;>
        · simp only [on401, Except.ok.injEq] at h
          subst h
          exact ⟨rfl, rfl, rfl, fun _ hh => absurd hh h200, fun _ => rfl⟩
    · simp only [Except.ok.injEq] at h
      subst h
      exact ⟨rfl, rfl, rfl, fun _ _ => rfl, fun _ => rfl⟩

/-! ## The token of the requests -/

/-- The handlers of a click, all of them of the script and bound with token
`t`, leave the elements as they are and send only requests carrying `t`. -/
theorem handlers_run_token (t : JSValue) (i : Nat) (this : Element) :
    ∀ (hs : List ClickHandler) (p : Page),
      (∀ a u, ClickHandler.app a u ∈ hs → u = t) →
      (∀ s ∈ p.sent, s.request.data.lookup "csrfmiddlewaretoken" = some t) →
      (hs.foldl (fun q h => h.run i this q) p).elements = p.elements ∧
        ∀ s ∈ (hs.foldl (fun q h => h.run i this q) p).sent,
          s.request.data.lookup "csrfmiddlewaretoken" = some t := by
  intro hs
  induction hs with
  | nil => intro p _ hp; exact ⟨rfl, hp⟩
  | cons h hs ih =>
    intro p hall hp
    have hrest : ∀ a u, ClickHandler.app a u ∈ hs → u = t :=
      fun a u hm => hall a u (List.mem_cons_of_mem _ hm)
    cases h with
    | other id => exact ih p hrest hp
    | app a u =>
      have hu : u = t := hall a u (List.mem_cons_self _ _)
      subst hu
      have hone : ∀ s ∈ (onClick a u i this p).sent,
          s.request.data.lookup "csrfmiddlewaretoken" = some u := by
        intro s hs'
        cases a <;>
          · simp only [onClick, Page.ajax, List.mem_append, List.mem_singleton] at hs'
            rcases hs' with hs' | rfl
            · exact hp s hs'
            · rfl
      have hel : (onClick a u i this p).elements = p.elements := by cases a <;> rfl
      obtain ⟨h1, h2⟩ := ih (onClick a u i this p) hrest hone
      exact ⟨h1.trans hel, h2⟩

/-- C8: setup reads the token once.  On a page as loaded, after setup and any
sequence of clicks, responses and changes of the hidden inputs by other code,
every request sent carries as `csrfmiddlewaretoken` the value the first hidden
input had when setup ran, and the click handlers, with the token they closed
over, are those setup bound. -/
theorem requests_carry_setup_token (jq : SelectorEngine)
    (elements : List (String × List String × String × String)) (inputs : List String)
    (events : List Event) :
    (∀ s ∈ (run jq (ready (load elements inputs)) events).sent,
        s.request.data.lookup "csrfmiddlewaretoken" = some (val inputs)) ∧
      (run jq (ready (load elements inputs)) events).elements.map Element.handlers =
        (ready (load elements inputs)).elements.map Element.handlers ∧
      ∀ e ∈ (run jq (ready (load elements inputs)) events).elements,
        ∀ (a : Action) (u : JSValue), ClickHandler.app a u ∈ e.handlers → u = val inputs := by
  -- the handler table setup leaves holds only handlers closed over the token read
  have htable : ∀ hs ∈ (ready (load elements inputs)).elements.map Element.handlers,
      ∀ (a : Action) (u : JSValue), ClickHandler.app a u ∈ hs → u = val inputs := by
    intro hs hmem a u hu
    rw [ready_eq] at hmem
    simp only [load, List.map_map, List.mem_map, Function.comp_apply] at hmem
    obtain ⟨x, _, rfl⟩ := hmem
    obtain ⟨tag, classes, value, html⟩ := x
    simp only [rebind] at hu
    cases hb : boundAction classes <;> simp [hb] at hu
    exact hu.2
  -- the invariant of a run
  have hinv : ∀ (evs : List Event) (p : Page),
      p.elements.map Element.handlers =
        (ready (load elements inputs)).elements.map Element.handlers →
      (∀ s ∈ p.sent, s.request.data.lookup "csrfmiddlewaretoken" = some (val inputs)) →
      (run jq p evs).elements.map Element.handlers =
          (ready (load elements inputs)).elements.map Element.handlers ∧
        ∀ s ∈ (run jq p evs).sent,
          s.request.data.lookup "csrfmiddlewaretoken" = some (val inputs) := by
    intro evs
    induction evs with
    | nil => intro p h1 h2; exact ⟨h1, h2⟩
    | cons ev evs ih =>
      intro p h1 h2
      have hstep : (step jq p ev).elements.map Element.handlers =
            (ready (load elements inputs)).elements.map Element.handlers ∧
          ∀ s ∈ (step jq p ev).sent,
            s.request.data.lookup "csrfmiddlewaretoken" = some (val inputs) := by
        cases ev with
        | click i =>
          simp only [step, click]
          cases hi : p.elements[i]? with
          | none => exact ⟨h1, h2⟩
          | some this =>
            have hth : this.handlers ∈ p.elements.map Element.handlers :=
              List.mem_map.mpr ⟨this, List.getElem?_mem hi, rfl⟩
            obtain ⟨g1, g2⟩ := handlers_run_token (val inputs) i this this.handlers p
              (htable _ (h1 ▸ hth)) h2
            exact ⟨by rw [g1]; exact h1, g2⟩
        | response k status payload =>
          simp only [step]
          split
          · exact ⟨h1, h2⟩
          · split
            · rename_i q hr
              obtain ⟨g1, _, g2, _⟩ := statusCode_frame jq _ _ _ _ p q hr
              exact ⟨by rw [g2]; exact h1, by rw [g1]; exact h2⟩
            · exact ⟨h1, h2⟩
        | setInputs new => exact ⟨h1, h2⟩
      exact ih (step jq p ev) hstep.1 hstep.2
  have hready : ∀ s ∈ (ready (load elements inputs)).sent,
      s.request.data.lookup "csrfmiddlewaretoken" = some (val inputs) := by
    intro s hs
    simp [ready, load] at hs
  obtain ⟨g1, g2⟩ := hinv events (ready (load elements inputs)) rfl hready
  refine ⟨g2, g1, ?_⟩
  intro e he a u hu
  exact htable e.handlers (g1 ▸ List.mem_map.mpr ⟨e, he, rfl⟩) a u hu

end Sebez
